import Mathlib

/-!
Shallow embedding of the volume-optimizer core: the landmark catalog and
recommendation engine (src/volume_data.py, src/volume_calculator.py), the
daily-quota tracker (src/auth.py check_rate_limit, src/config.py limits),
and the request pipeline and tier upgrade of src/api.py.
Days are abstracted to natural numbers (the code scopes usage counts to the
UTC calendar date); database rows become lists threaded through explicitly;
a raised exception becomes an Except error value.
-/

/-- Subscription tiers, as in src/database.py SubscriptionTier and the
Literal types of src/models.py. -/
inductive Tier where
  | free
  | pro
  | enterprise
deriving DecidableEq, Repr

/-- One MEV/MAV/MRV triple of src/volume_data.py. -/
structure Landmarks where
  MEV : Nat
  MAV : Nat
  MRV : Nat
deriving DecidableEq, Repr

/-- The volume_landmarks table of src/volume_data.py, as an association
list keyed by muscle group, then by training level. -/
def volume_landmarks : List (String × List (String × Landmarks)) :=
  [("chest",
     [("beginner", ⟨8, 12, 16⟩),
      ("intermediate", ⟨10, 15, 20⟩),
      ("advanced", ⟨12, 18, 24⟩)]),
   ("back",
     [("beginner", ⟨10, 14, 18⟩),
      ("intermediate", ⟨12, 16, 22⟩),
      ("advanced", ⟨14, 20, 26⟩)]),
   ("shoulders",
     [("beginner", ⟨8, 12, 16⟩),
      ("intermediate", ⟨10, 14, 20⟩),
      ("advanced", ⟨12, 16, 24⟩)]),
   ("biceps",
     [("beginner", ⟨6, 10, 14⟩),
      ("intermediate", ⟨8, 12, 18⟩),
      ("advanced", ⟨10, 14, 22⟩)]),
   ("triceps",
     [("beginner", ⟨6, 10, 14⟩),
      ("intermediate", ⟨8, 12, 18⟩),
      ("advanced", ⟨10, 14, 22⟩)]),
   ("quads",
     [("beginner", ⟨8, 12, 16⟩),
      ("intermediate", ⟨10, 14, 20⟩),
      ("advanced", ⟨12, 18, 24⟩)]),
   ("hamstrings",
     [("beginner", ⟨6, 10, 14⟩),
      ("intermediate", ⟨8, 12, 18⟩),
      ("advanced", ⟨10, 14, 22⟩)]),
   ("glutes",
     [("beginner", ⟨6, 10, 14⟩),
      ("intermediate", ⟨8, 12, 18⟩),
      ("advanced", ⟨10, 14, 22⟩)]),
   ("calves",
     [("beginner", ⟨8, 12, 16⟩),
      ("intermediate", ⟨10, 14, 20⟩),
      ("advanced", ⟨12, 16, 24⟩)]),
   ("abs",
     [("beginner", ⟨6, 10, 14⟩),
      ("intermediate", ⟨8, 12, 18⟩),
      ("advanced", ⟨10, 14, 22⟩)])]

/-- src/volume_data.py get_available_muscle_groups: free sees only chest,
any other tier sees every catalog key. -/
def get_available_muscle_groups (subscription_tier : Tier) : List String :=
  if subscription_tier = Tier.free then ["chest"]
  else volume_landmarks.map Prod.fst

/-- Errors recommend_volume can raise: the explicit ValueError for a
muscle group missing from the catalog, and the implicit KeyError from
indexing volume_landmarks[muscle_group][training_level] with an unknown
training level. -/
inductive CalcError where
  | valueError (msg : String)
  | keyError (key : String)
deriving DecidableEq, Repr

deriving instance DecidableEq for Except

/-- The ValueError message of src/volume_calculator.py line 27. -/
def invalidGroupMessage : String :=
  "Invalid muscle group. Available: " ++ toString (volume_landmarks.map Prod.fst)

/-- src/volume_calculator.py recommend_volume. The landmark lookup for
(muscle_group, training_level) happens before progress is inspected, as in
the source (line 31 precedes the branching at line 33). -/
def recommend_volume (current_sets : Int) (training_level : String)
    (progress : String) (recovered : String) (muscle_group : String) :
    Except CalcError String :=
  match volume_landmarks.lookup muscle_group with
  | none => .error (.valueError invalidGroupMessage)
  | some byLevel =>
    match byLevel.lookup training_level with
    | none => .error (.keyError training_level)
    | some landmarks =>
      if progress = "yes" then
        .ok "No change needed - continue current volume"
      else if progress = "no" then
        if current_sets < (landmarks.MEV : Int) then
          let m := landmarks.MEV
          .ok s!"Increase to at least {m} sets per week (MEV)"
        else if current_sets < (landmarks.MAV : Int) ∧ recovered = "yes" then
          let m := landmarks.MAV
          .ok s!"Increase to at least {m} sets per week (MAV)"
        else if current_sets > (landmarks.MRV : Int) ∧ recovered = "no" then
          let m := landmarks.MRV
          .ok s!"Decrease to at most {m} sets per week (MRV)"
        else
          .ok "Maintain current volume and reassess next week"
      else
        .ok "Reassess in two weeks with clearer progress indicators"

/-- Abstract recommendation outcomes, used to state the decision-order
claim of the specification (section 4.3) and to enumerate the fixed
response phrasings. -/
inductive Recommendation where
  | maintain
  | increaseToMEV (mev : Nat)
  | increaseToMAV (mav : Nat)
  | decreaseToMRV (mrv : Nat)
  | maintainReassessNextWeek
  | reassessTwoWeeks
deriving DecidableEq, Repr

/-- Modelled from the spec: the decision order of section 4.3, written
from the claim wording alone (first matching branch wins), to be compared
with recommend_volume. -/
def recommend_spec (current_sets : Int) (lm : Landmarks)
    (progress : String) (recovered : String) : Recommendation :=
  if progress = "yes" then .maintain
  else if progress = "no" then
    if current_sets < (lm.MEV : Int) then .increaseToMEV lm.MEV
    else if current_sets < (lm.MAV : Int) ∧ recovered = "yes" then .increaseToMAV lm.MAV
    else if current_sets > (lm.MRV : Int) ∧ recovered = "no" then .decreaseToMRV lm.MRV
    else .maintainReassessNextWeek
  else .reassessTwoWeeks

/-- The exact string the code emits for each abstract recommendation. -/
def render : Recommendation → String
  | .maintain => "No change needed - continue current volume"
  | .increaseToMEV m => s!"Increase to at least {m} sets per week (MEV)"
  | .increaseToMAV m => s!"Increase to at least {m} sets per week (MAV)"
  | .decreaseToMRV m => s!"Decrease to at most {m} sets per week (MRV)"
  | .maintainReassessNextWeek => "Maintain current volume and reassess next week"
  | .reassessTwoWeeks => "Reassess in two weeks with clearer progress indicators"

/-- Both dictionary lookups of volume_landmarks[mg][lvl], as used for the
landmarks field of the response in src/api.py line 355. -/
def lookupLandmarks (muscle_group training_level : String) : Option Landmarks :=
  (volume_landmarks.lookup muscle_group).bind (fun t => t.lookup training_level)

/-- One row of the usage_logs table (src/database.py UsageLog); created_at
is abstracted to the calendar day it falls on. -/
structure UsageEvent where
  uid : Nat
  endpoint : String
  day : Nat
deriving DecidableEq, Repr

/-- Number of usage rows for this user dated today, as computed by the
count query in src/auth.py check_rate_limit lines 106-116. -/
def countToday (uid day : Nat) (logs : List UsageEvent) : Nat :=
  (logs.filter (fun e => e.uid == uid && e.day == day)).length

/-- The tier limits of src/config.py (free_tier_daily_limit etc.), as read
by the limits dict in src/auth.py check_rate_limit. -/
def dailyLimit : Tier → Nat
  | .free => 100
  | .pro => 10000
  | .enterprise => 1000000

/-- Errors surfaced by the API layer. rateLimitExceeded is HTTP 429,
muscleGroupForbidden and downgradeRejected are 403/400 HTTPExceptions,
badRequest is the 400 wrapping a ValueError, internalError stands for an
uncaught exception (KeyError) escaping the handler, persistenceFailure for
an exception raised by the history commit. -/
inductive ApiError where
  | rateLimitExceeded
  | muscleGroupForbidden
  | badRequest (msg : String)
  | internalError (key : String)
  | persistenceFailure
  | downgradeRejected
deriving DecidableEq, Repr

/-- src/auth.py check_rate_limit: count today's usage rows for the user;
if the count has reached the tier limit raise 429 (appending nothing),
otherwise append one UsageLog row. The second component is the usage table
after the call. -/
def check_rate_limit (tier : Tier) (uid day : Nat) (endpoint : String)
    (logs : List UsageEvent) : Except ApiError Unit × List UsageEvent :=
  if dailyLimit tier ≤ countToday uid day logs then
    (.error .rateLimitExceeded, logs)
  else
    (.ok (), logs ++ [⟨uid, endpoint, day⟩])

/-- Runs n sequential check_rate_limit calls for one identity; some logs
if every call was admitted, none if any call was denied. -/
def admitN (tier : Tier) (uid day : Nat) (endpoint : String) :
    Nat → List UsageEvent → Option (List UsageEvent)
  | 0, logs => some logs
  | n + 1, logs =>
    match check_rate_limit tier uid day endpoint logs with
    | (.ok _, logs2) => admitN tier uid day endpoint n logs2
    | (.error _, _) => none

/-- The request body of /v1/predict-volume (src/models.py VolumeRequest).
Pydantic constrains current_sets to a positive integer and training_level,
progress, recovered to literal enumerations; the fields are kept at the
types the handler code sees. -/
structure VolumeRequest where
  current_sets : Int
  training_level : String
  progress : String
  recovered : String
  muscle_group : String
deriving DecidableEq, Repr

/-- src/models.py VolumeResponse. -/
structure VolumeResponse where
  volume_prediction : String
  current_sets : Int
  muscle_group : String
  training_level : String
  landmarks : Option Landmarks
deriving DecidableEq, Repr

/-- One row of the training_history table (src/database.py
TrainingHistory), without the generated id and timestamp. -/
structure HistoryRecord where
  user_id : Nat
  muscle_group : String
  current_sets : Int
  recommended_sets : String
  training_level : String
  progress : String
  recovered : String
deriving DecidableEq, Repr

/-- The endpoint name logged by /v1/predict-volume. -/
def predictEndpoint : String := "/v1/predict-volume"

/-- The VolumeResponse built at src/api.py lines 350-358: the landmarks
snapshot is included exactly when the tier is not free. -/
def mkResponse (tier : Tier) (req : VolumeRequest) (prediction : String) :
    VolumeResponse :=
  { volume_prediction := prediction
    current_sets := req.current_sets
    muscle_group := req.muscle_group
    training_level := req.training_level
    landmarks :=
      if tier ≠ Tier.free then lookupLandmarks req.muscle_group req.training_level
      else none }

/-- src/api.py predict_volume_v1 after identity resolution: rate limit
first, then the tier-visibility check, then recommend_volume, then the
history write for pro/enterprise, then the response. commitOk is the
outcome of the history commit; when it is false the exception propagates
(there is no try/except around the commit at lines 347-348) and no
response is produced. Returns the response together with the usage and
history tables after the call. -/
def predict_volume_v1 (tier : Tier) (uid day : Nat) (req : VolumeRequest)
    (logs : List UsageEvent) (hist : List HistoryRecord) (commitOk : Bool) :
    Except ApiError (VolumeResponse × List UsageEvent × List HistoryRecord) :=
  match check_rate_limit tier uid day predictEndpoint logs with
  | (.error e, _) => .error e
  | (.ok _, logs2) =>
    if req.muscle_group ∈ get_available_muscle_groups tier then
      match recommend_volume req.current_sets req.training_level req.progress
          req.recovered req.muscle_group with
      | .error (.valueError m) => .error (.badRequest m)
      | .error (.keyError k) => .error (.internalError k)
      | .ok prediction =>
        if tier = Tier.pro ∨ tier = Tier.enterprise then
          if commitOk then
            .ok (mkResponse tier req prediction, logs2,
              hist ++ [⟨uid, req.muscle_group, req.current_sets, prediction,
                req.training_level, req.progress, req.recovered⟩])
          else .error .persistenceFailure
        else
          .ok (mkResponse tier req prediction, logs2, hist)
    else .error .muscleGroupForbidden

/-- The tier_hierarchy dict of src/api.py upgrade_subscription. -/
def rank : Tier → Nat
  | .free => 0
  | .pro => 1
  | .enterprise => 2

/-- The mutable state upgrade_subscription can see: the identity's tier
and the two append-only tables. -/
structure AppState where
  tier : Tier
  usage : List UsageEvent
  history : List HistoryRecord
deriving DecidableEq, Repr

/-- src/api.py upgrade_subscription: reject a target rank at or below the
current rank with a 400, otherwise set the tier. No rate-limit call and no
history write occur on this path. -/
def upgrade_subscription (st : AppState) (requested : Tier) :
    Except ApiError Unit × AppState :=
  if rank requested ≤ rank st.tier then
    (.error .downgradeRejected, st)
  else
    (.ok (), { st with tier := requested })

/-! ## Helper lemmas -/

theorem lookup_all {β : Type} (p : β → Bool) :
    ∀ (l : List (String × β)) (a : String) (b : β),
      l.all (fun kv => p kv.2) = true → l.lookup a = some b → p b = true := by
  intro l
  induction l with
  | nil => intro a b _ h2; simp [List.lookup] at h2
  | cons kv t ih =>
    intro a b h1 h2
    obtain ⟨k, v⟩ := kv
    simp only [List.all_cons, Bool.and_eq_true] at h1
    rw [List.lookup] at h2
    by_cases hk : a == k
    · rw [hk] at h2
      simp only at h2
      cases h2
      exact h1.1
    · rw [Bool.not_eq_true] at hk
      rw [hk] at h2
      exact ih a b h1.2 h2

theorem lookup_keys_none {β : Type} (p : String → Bool) :
    ∀ (l : List (String × β)) (a : String),
      l.all (fun kv => p kv.1) = true → p a = false → l.lookup a = none := by
  intro l
  induction l with
  | nil => intro a _ _; rfl
  | cons kv t ih =>
    intro a h1 ha
    obtain ⟨k, v⟩ := kv
    simp only [List.all_cons, Bool.and_eq_true] at h1
    rw [List.lookup]
    have hk : (a == k) = false := by
      by_cases he : a = k
      · subst he
        rw [h1.1] at ha
        cases ha
      · exact beq_eq_false_iff_ne.mpr he
    rw [hk]
    exact ih a h1.2 ha

theorem countToday_append_self (uid day : Nat) (logs : List UsageEvent) (ep : String) :
    countToday uid day (logs ++ [⟨uid, ep, day⟩]) = countToday uid day logs + 1 := by
  simp [countToday, List.filter_append]

theorem admitN_le (tier : Tier) (uid day : Nat) (ep : String) :
    ∀ (n : Nat) (logs : List UsageEvent),
      countToday uid day logs + n ≤ dailyLimit tier →
      ∃ logs2, admitN tier uid day ep n logs = some logs2 ∧
        countToday uid day logs2 = countToday uid day logs + n := by
  intro n
  induction n with
  | zero => intro logs _; exact ⟨logs, rfl, by omega⟩
  | succ m ih =>
    intro logs h
    have hlt : countToday uid day logs < dailyLimit tier := by omega
    have hcheck : check_rate_limit tier uid day ep logs =
        (.ok (), logs ++ [⟨uid, ep, day⟩]) := by
      simp [check_rate_limit, Nat.not_le.mpr hlt]
    have hcount := countToday_append_self uid day logs ep
    obtain ⟨logs2, ha, hb⟩ := ih (logs ++ [⟨uid, ep, day⟩]) (by omega)
    refine ⟨logs2, ?_, by omega⟩
    simp only [admitN, hcheck]
    exact ha

theorem recommend_volume_ok_lookup (cs : Int) (lvl prog recov mg s : String)
    (h : recommend_volume cs lvl prog recov mg = .ok s) :
    ∃ lm, lookupLandmarks mg lvl = some lm := by
  rcases hm : volume_landmarks.lookup mg with _ | byLevel
  · simp [recommend_volume, hm] at h
  · rcases hl : byLevel.lookup lvl with _ | lm
    · simp [recommend_volume, hm, hl] at h
    · exact ⟨lm, by simp [lookupLandmarks, hm, hl]⟩

theorem recommend_volume_ok_render (cs : Int) (lvl prog recov mg s : String)
    (h : recommend_volume cs lvl prog recov mg = .ok s) :
    ∃ rec, s = render rec := by
  rcases hm : volume_landmarks.lookup mg with _ | byLevel
  · simp [recommend_volume, hm] at h
  · rcases hl : byLevel.lookup lvl with _ | lm
    · simp [recommend_volume, hm, hl] at h
    · simp only [recommend_volume, hm, hl] at h
      split_ifs at h <;> simp only [Except.ok.injEq] at h
      · exact ⟨.maintain, h.symm⟩
      · exact ⟨.increaseToMEV lm.MEV, h.symm⟩
      · exact ⟨.increaseToMAV lm.MAV, h.symm⟩
      · exact ⟨.decreaseToMRV lm.MRV, h.symm⟩
      · exact ⟨.maintainReassessNextWeek, h.symm⟩
      · exact ⟨.reassessTwoWeeks, h.symm⟩

/-! ## Claim theorems -/

/-- Claim C1: for every input whose muscle group is in the landmark
catalog and whose training level is known for that group, recommend_volume
selects its recommendation by the exact precedence of the specification
(progress yes → maintain; progress no → below MEV / below MAV with
recovery / above MRV without recovery / otherwise maintain-and-reassess;
otherwise reassess in two weeks), with MEV/MAV/MRV taken from the catalog
entry. -/
theorem recommend_volume_decision_order (cs : Int) (lvl prog recov mg : String)
    (byLevel : List (String × Landmarks)) (lm : Landmarks)
    (h1 : volume_landmarks.lookup mg = some byLevel)
    (h2 : byLevel.lookup lvl = some lm) :
    recommend_volume cs lvl prog recov mg = .ok (render (recommend_spec cs lm prog recov)) := by
  simp only [recommend_volume, recommend_spec, h1, h2]
  split_ifs <;> rfl

/-- Witness for C1 at (12, intermediate, yes, yes, chest). -/
theorem recommend_volume_decision_order_witness :
    volume_landmarks.lookup "chest" =
      some [("beginner", ⟨8, 12, 16⟩), ("intermediate", ⟨10, 15, 20⟩),
        ("advanced", ⟨12, 18, 24⟩)] ∧
    ([("beginner", (⟨8, 12, 16⟩ : Landmarks)), ("intermediate", ⟨10, 15, 20⟩),
        ("advanced", ⟨12, 18, 24⟩)].lookup "intermediate" = some ⟨10, 15, 20⟩) ∧
    recommend_volume 12 "intermediate" "yes" "yes" "chest" =
      .ok (render (recommend_spec 12 ⟨10, 15, 20⟩ "yes" "yes")) :=
  ⟨rfl, rfl,
    recommend_volume_decision_order 12 "intermediate" "yes" "yes" "chest" _ _ rfl rfl⟩

/-- Claim C4: recommend_volume fails with the ValueError (UnknownMuscleGroup)
exactly when the muscle group is absent from the landmark catalog, for
every combination of the remaining arguments. -/
theorem recommend_volume_valueerror_iff (cs : Int) (lvl prog recov mg : String) :
    (∃ m, recommend_volume cs lvl prog recov mg = .error (.valueError m)) ↔
      volume_landmarks.lookup mg = none := by
  rcases hm : volume_landmarks.lookup mg with _ | byLevel <;>
    simp only [recommend_volume, hm]
  · simp
  · constructor
    · rintro ⟨m, hmm⟩
      exfalso
      rcases hl : byLevel.lookup lvl with _ | lm
      · simp [hl] at hmm
      · simp only [hl] at hmm
        split_ifs at hmm
    · intro hc
      cases hc

/-- Claim C7: every entry of the landmark catalog satisfies
MEV ≤ MAV ≤ MRV. -/
theorem landmark_ordering_invariant (mg lvl : String)
    (byLevel : List (String × Landmarks)) (lm : Landmarks)
    (h1 : volume_landmarks.lookup mg = some byLevel)
    (h2 : byLevel.lookup lvl = some lm) :
    lm.MEV ≤ lm.MAV ∧ lm.MAV ≤ lm.MRV := by
  have hall : volume_landmarks.all
      (fun kv => kv.2.all
        (fun e => decide (e.2.MEV ≤ e.2.MAV) && decide (e.2.MAV ≤ e.2.MRV))) = true := by
    decide
  have h3 := lookup_all
    (fun t => t.all (fun e => decide (e.2.MEV ≤ e.2.MAV) && decide (e.2.MAV ≤ e.2.MRV)))
    volume_landmarks mg byLevel hall h1
  have h4 := lookup_all
    (fun lmk => decide (lmk.MEV ≤ lmk.MAV) && decide (lmk.MAV ≤ lmk.MRV))
    byLevel lvl lm h3 h2
  simp only [Bool.and_eq_true, decide_eq_true_eq] at h4
  exact h4

/-- Witness for C7 at (chest, beginner). -/
theorem landmark_ordering_invariant_witness :
    volume_landmarks.lookup "chest" =
      some [("beginner", ⟨8, 12, 16⟩), ("intermediate", ⟨10, 15, 20⟩),
        ("advanced", ⟨12, 18, 24⟩)] ∧
    ([("beginner", (⟨8, 12, 16⟩ : Landmarks)), ("intermediate", ⟨10, 15, 20⟩),
        ("advanced", ⟨12, 18, 24⟩)].lookup "beginner" = some ⟨8, 12, 16⟩) ∧
    ((8 : Nat) ≤ 12 ∧ (12 : Nat) ≤ 16) :=
  ⟨rfl, rfl, landmark_ordering_invariant "chest" "beginner" _ _ rfl rfl⟩

/-- Claim C10: the landmark lookup for (muscle_group, training_level) is
performed before progress is inspected, so for a catalog muscle group and
a training level outside beginner/intermediate/advanced the call fails
with a KeyError for every progress value, including progress yes. -/
theorem recommend_volume_unknown_level (cs : Int) (lvl prog recov mg : String)
    (byLevel : List (String × Landmarks))
    (h1 : volume_landmarks.lookup mg = some byLevel)
    (h2 : lvl ≠ "beginner") (h3 : lvl ≠ "intermediate") (h4 : lvl ≠ "advanced") :
    recommend_volume cs lvl prog recov mg = .error (.keyError lvl) := by
  have hall : volume_landmarks.all
      (fun kv => kv.2.all
        (fun e => e.1 == "beginner" || e.1 == "intermediate" || e.1 == "advanced")) = true := by
    decide
  have hkeys := lookup_all
    (fun t => t.all
      (fun e => e.1 == "beginner" || e.1 == "intermediate" || e.1 == "advanced"))
    volume_landmarks mg byLevel hall h1
  have hnone : byLevel.lookup lvl = none := by
    apply lookup_keys_none
      (fun k => k == "beginner" || k == "intermediate" || k == "advanced")
      byLevel lvl hkeys
    simp [h2, h3, h4]
  simp only [recommend_volume, h1, hnone]

/-- Witness for C10: training level "expert" on chest with progress yes
still raises the KeyError. -/
theorem recommend_volume_unknown_level_witness :
    volume_landmarks.lookup "chest" =
      some [("beginner", ⟨8, 12, 16⟩), ("intermediate", ⟨10, 15, 20⟩),
        ("advanced", ⟨12, 18, 24⟩)] ∧
    ("expert" ≠ "beginner" ∧ "expert" ≠ "intermediate" ∧ "expert" ≠ "advanced") ∧
    recommend_volume 10 "expert" "yes" "yes" "chest" = .error (.keyError "expert") :=
  ⟨rfl, ⟨by decide, by decide, by decide⟩,
    recommend_volume_unknown_level 10 "expert" "yes" "yes" "chest" _ rfl
      (by decide) (by decide) (by decide)⟩

/-- Claim C2: with the usage count for an identity and day at exactly the
tier limit, the next check-and-record call is denied with a 429 and leaves
the usage table unchanged, so the count stays at the limit; and for the
free tier, 100 requests starting from an empty table are all admitted
while the 101st is denied. -/
theorem quota_boundary (tier : Tier) (uid day : Nat) (ep : String)
    (logs : List UsageEvent)
    (h : countToday uid day logs = dailyLimit tier) :
    check_rate_limit tier uid day ep logs = (.error .rateLimitExceeded, logs)
    ∧ ∃ logs2, admitN Tier.free uid day ep 100 [] = some logs2
        ∧ countToday uid day logs2 = 100
        ∧ check_rate_limit Tier.free uid day ep logs2 =
            (.error .rateLimitExceeded, logs2) := by
  constructor
  · simp [check_rate_limit, h]
  · obtain ⟨logs2, ha, hb⟩ := admitN_le Tier.free uid day ep 100 []
      (by simp [countToday, dailyLimit])
    have hb2 : countToday uid day logs2 = 100 := by simpa [countToday] using hb
    exact ⟨logs2, ha, hb2, by simp [check_rate_limit, hb2, dailyLimit]⟩

/-- Witness for C2: a free identity with 100 usage rows today. -/
theorem quota_boundary_witness :
    countToday 1 0 (List.replicate 100 ⟨1, "e", 0⟩) = dailyLimit Tier.free
    ∧ (check_rate_limit Tier.free 1 0 "e" (List.replicate 100 ⟨1, "e", 0⟩) =
        (.error .rateLimitExceeded, List.replicate 100 ⟨1, "e", 0⟩)
      ∧ ∃ logs2, admitN Tier.free 1 0 "e" 100 [] = some logs2
          ∧ countToday 1 0 logs2 = 100
          ∧ check_rate_limit Tier.free 1 0 "e" logs2 =
              (.error .rateLimitExceeded, logs2)) :=
  ⟨by decide,
    quota_boundary Tier.free 1 0 "e" (List.replicate 100 ⟨1, "e", 0⟩) (by decide)⟩

/-- Claim C5: a tier upgrade succeeds and sets the tier to the requested
tier exactly when the requested rank is strictly above the current rank;
otherwise it fails with DowngradeRejected and the state is unchanged; in
all cases the usage and history tables are untouched. -/
theorem upgrade_rank_iff (st : AppState) (requested : Tier) :
    ((upgrade_subscription st requested).1 = .ok () ↔ rank st.tier < rank requested)
    ∧ (rank requested ≤ rank st.tier →
        upgrade_subscription st requested = (.error .downgradeRejected, st))
    ∧ (rank st.tier < rank requested →
        (upgrade_subscription st requested).2 = { st with tier := requested })
    ∧ (upgrade_subscription st requested).2.usage = st.usage
    ∧ (upgrade_subscription st requested).2.history = st.history := by
  unfold upgrade_subscription
  by_cases hle : rank requested ≤ rank st.tier
  · rw [if_pos hle]
    exact ⟨⟨fun hc => Except.noConfusion hc, fun hlt => absurd hle (not_le.mpr hlt)⟩,
      fun _ => rfl, fun hlt => absurd hle (not_le.mpr hlt), rfl, rfl⟩
  · rw [if_neg hle]
    exact ⟨⟨fun _ => not_le.mp hle, fun _ => rfl⟩,
      fun hc => absurd hc hle, fun _ => rfl, rfl, rfl⟩

/-- Witness for C5: a free identity upgrading to pro. -/
theorem upgrade_rank_iff_witness :
    rank Tier.free < rank Tier.pro
    ∧ (upgrade_subscription ⟨Tier.free, [], []⟩ Tier.pro).2 = ⟨Tier.pro, [], []⟩ :=
  ⟨by decide, (upgrade_rank_iff ⟨Tier.free, [], []⟩ Tier.pro).2.2.1 (by decide)⟩

/-- Claim C3 counterexample: the code does not return the phrasings the
claim states; the progress-yes scenario returns the string
"No change needed - continue current volume", not "maintain current
volume", and the below-MEV scenario returns
"Increase to at least 8 sets per week (MEV)", not "increase to at
least 8". -/
theorem volume_prediction_phrasing_counterexample :
    recommend_volume 12 "intermediate" "yes" "yes" "chest" =
      .ok "No change needed - continue current volume"
    ∧ recommend_volume 12 "intermediate" "yes" "yes" "chest" ≠
      .ok "maintain current volume"
    ∧ recommend_volume 6 "beginner" "no" "yes" "chest" =
      .ok "Increase to at least 8 sets per week (MEV)"
    ∧ recommend_volume 6 "beginner" "no" "yes" "chest" ≠
      .ok "increase to at least 8" :=
  ⟨by decide, by decide, by decide, by decide⟩

/-- Claim C3 amended: every successful prediction string is one of the
code's fixed phrasings (the image of render), and the two concrete
scenarios of the claim yield the code's exact strings
"No change needed - continue current volume" and
"Increase to at least 8 sets per week (MEV)". -/
theorem volume_prediction_phrasing_amended :
    (∀ (cs : Int) (lvl prog recov mg s : String),
      recommend_volume cs lvl prog recov mg = .ok s → ∃ rec, s = render rec)
    ∧ recommend_volume 12 "intermediate" "yes" "yes" "chest" =
        .ok "No change needed - continue current volume"
    ∧ recommend_volume 6 "beginner" "no" "yes" "chest" =
        .ok "Increase to at least 8 sets per week (MEV)" :=
  ⟨fun cs lvl prog recov mg s h => recommend_volume_ok_render cs lvl prog recov mg s h,
    by decide, by decide⟩

/-- Witness for C3 amended at the progress-yes scenario. -/
theorem volume_prediction_phrasing_amended_witness :
    recommend_volume 12 "intermediate" "yes" "yes" "chest" =
      .ok "No change needed - continue current volume"
    ∧ ∃ rec, "No change needed - continue current volume" = render rec :=
  ⟨by decide,
    volume_prediction_phrasing_amended.1 12 "intermediate" "yes" "yes" "chest"
      "No change needed - continue current volume" (by decide)⟩

/-- Claim C6 counterexample: a free identity that has exhausted its daily
quota and requests the muscle group back is rejected by the earlier quota
check with RateLimitExceeded, not with MuscleGroupForbidden, because
predict_volume_v1 calls check_rate_limit before the visibility check. -/
theorem free_quota_before_visibility_counterexample :
    predict_volume_v1 Tier.free 1 0 ⟨12, "intermediate", "yes", "yes", "back"⟩
        (List.replicate 100 ⟨1, "e", 0⟩) [] true = .error .rateLimitExceeded
    ∧ ApiError.rateLimitExceeded ≠ ApiError.muscleGroupForbidden :=
  ⟨by decide, by decide⟩

/-- Claim C6 amended: chest is visible at every tier; the free tier sees
exactly the chest group; pro and enterprise see exactly the ten-group
catalog; and a free identity whose daily quota is not yet exhausted
requesting any group other than chest is rejected with
MuscleGroupForbidden before any recommendation is computed (a
quota-exhausted identity is rejected with RateLimitExceeded instead). -/
theorem tier_visibility_amended :
    (∀ tier, "chest" ∈ get_available_muscle_groups tier)
    ∧ get_available_muscle_groups Tier.free = ["chest"]
    ∧ get_available_muscle_groups Tier.pro =
        ["chest", "back", "shoulders", "biceps", "triceps", "quads",
         "hamstrings", "glutes", "calves", "abs"]
    ∧ get_available_muscle_groups Tier.enterprise =
        ["chest", "back", "shoulders", "biceps", "triceps", "quads",
         "hamstrings", "glutes", "calves", "abs"]
    ∧ ∀ (uid day : Nat) (req : VolumeRequest) (logs : List UsageEvent)
        (hist : List HistoryRecord) (commitOk : Bool),
        countToday uid day logs < dailyLimit Tier.free →
        req.muscle_group ≠ "chest" →
        predict_volume_v1 Tier.free uid day req logs hist commitOk =
          .error .muscleGroupForbidden := by
  refine ⟨?_, by decide, by decide, by decide, ?_⟩
  · intro tier
    cases tier <;> decide
  · intro uid day req logs hist cOk hcount hmg
    have hcheck : check_rate_limit Tier.free uid day predictEndpoint logs =
        (.ok (), logs ++ [⟨uid, predictEndpoint, day⟩]) := by
      simp [check_rate_limit, Nat.not_le.mpr hcount]
    have hnot : req.muscle_group ∉ get_available_muscle_groups Tier.free := by
      simp [get_available_muscle_groups, hmg]
    simp only [predict_volume_v1, hcheck]
    rw [if_neg hnot]

/-- Witness for C6 amended: a free identity under quota requesting back. -/
theorem tier_visibility_amended_witness :
    countToday 1 0 [] < dailyLimit Tier.free
    ∧ (VolumeRequest.mk 12 "intermediate" "yes" "yes" "back").muscle_group ≠ "chest"
    ∧ predict_volume_v1 Tier.free 1 0 ⟨12, "intermediate", "yes", "yes", "back"⟩ [] [] true =
        .error .muscleGroupForbidden :=
  ⟨by decide, by decide,
    tier_visibility_amended.2.2.2.2 1 0 ⟨12, "intermediate", "yes", "yes", "back"⟩ [] [] true
      (by decide) (by decide)⟩

/-- Claim C8 counterexample: for a pro identity the history commit is not
guarded by a try/except, so a failing history append aborts the request
with an error instead of returning the already-computed recommendation:
the response under a failing commit differs from the response under a
successful one. -/
theorem history_commit_failure_counterexample :
    predict_volume_v1 Tier.pro 1 0 ⟨12, "intermediate", "yes", "yes", "chest"⟩ [] [] false =
      .error .persistenceFailure
    ∧ predict_volume_v1 Tier.pro 1 0 ⟨12, "intermediate", "yes", "yes", "chest"⟩ [] [] true ≠
      predict_volume_v1 Tier.pro 1 0 ⟨12, "intermediate", "yes", "yes", "chest"⟩ [] [] false :=
  ⟨by decide, by decide⟩

/-- Claim C8 amended: a failure of the history append is not swallowed: a
successful response under a failing commit is only possible for the free
tier, which attempts no history write; for the free tier the response is
independent of the commit outcome. For pro and enterprise the
recommendation is returned only if the history write succeeds. -/
theorem history_commit_required_amended :
    (∀ (tier : Tier) (uid day : Nat) (req : VolumeRequest) (logs : List UsageEvent)
        (hist : List HistoryRecord)
        (out : VolumeResponse × List UsageEvent × List HistoryRecord),
      predict_volume_v1 tier uid day req logs hist false = .ok out → tier = Tier.free)
    ∧ ∀ (uid day : Nat) (req : VolumeRequest) (logs : List UsageEvent)
        (hist : List HistoryRecord),
        predict_volume_v1 Tier.free uid day req logs hist false =
          predict_volume_v1 Tier.free uid day req logs hist true := by
  constructor
  · intro tier uid day req logs hist out h
    by_contra hne
    have htier : tier = Tier.pro ∨ tier = Tier.enterprise := by
      cases tier
      · exact absurd rfl hne
      · exact Or.inl rfl
      · exact Or.inr rfl
    rcases hc : check_rate_limit tier uid day predictEndpoint logs with ⟨res, logs2⟩
    rcases res with e | u
    · simp only [predict_volume_v1, hc] at h
      exact Except.noConfusion h
    · simp only [predict_volume_v1, hc] at h
      by_cases hmem : req.muscle_group ∈ get_available_muscle_groups tier
      · rw [if_pos hmem] at h
        rcases hr : recommend_volume req.current_sets req.training_level req.progress
            req.recovered req.muscle_group with (m | k) | pred
        · simp only [hr] at h
          exact Except.noConfusion h
        · simp only [hr] at h
          exact Except.noConfusion h
        · simp only [hr] at h
          rw [if_pos htier] at h
          simp only [Bool.false_eq_true, if_false] at h
          exact Except.noConfusion h
      · rw [if_neg hmem] at h
        exact Except.noConfusion h
  · intro uid day req logs hist
    rcases hc : check_rate_limit Tier.free uid day predictEndpoint logs with ⟨res, logs2⟩
    rcases res with e | u
    · simp only [predict_volume_v1, hc]
    · simp only [predict_volume_v1, hc]
      by_cases hmem : req.muscle_group ∈ get_available_muscle_groups Tier.free
      · rw [if_pos hmem, if_pos hmem]
        rcases hr : recommend_volume req.current_sets req.training_level req.progress
            req.recovered req.muscle_group with (m | k) | pred <;> simp only [hr]
        have hfree : ¬ (Tier.free = Tier.pro ∨ Tier.free = Tier.enterprise) := by decide
        rw [if_neg hfree, if_neg hfree]
      · rw [if_neg hmem, if_neg hmem]

/-- Witness for C8 amended: a free-tier request with a failing commit
still succeeds, and its response equals the successful-commit response. -/
theorem history_commit_required_amended_witness :
    predict_volume_v1 Tier.free 1 0 ⟨12, "intermediate", "yes", "yes", "chest"⟩ [] [] false =
      .ok (⟨"No change needed - continue current volume", 12, "chest", "intermediate", none⟩,
        [⟨1, "/v1/predict-volume", 0⟩], [])
    ∧ Tier.free = Tier.free :=
  ⟨by decide,
    history_commit_required_amended.1 Tier.free 1 0 ⟨12, "intermediate", "yes", "yes", "chest"⟩
      [] []
      (⟨"No change needed - continue current volume", 12, "chest", "intermediate", none⟩,
        [⟨1, "/v1/predict-volume", 0⟩], [])
      (by decide)⟩

/-- Claim C9: for every successful response of predict_volume_v1, the
landmarks snapshot is present exactly when the tier is not free (and then
equals the catalog entry for the requested muscle group and training
level), and a HistoryRecord is appended exactly when the tier is pro or
enterprise. -/
theorem landmarks_present_iff_paid (tier : Tier) (uid day : Nat) (req : VolumeRequest)
    (logs : List UsageEvent) (hist : List HistoryRecord) (commitOk : Bool)
    (out : VolumeResponse × List UsageEvent × List HistoryRecord)
    (h : predict_volume_v1 tier uid day req logs hist commitOk = .ok out) :
    ((out.1).landmarks.isSome ↔ tier ≠ Tier.free)
    ∧ (tier ≠ Tier.free →
        ∃ lm, lookupLandmarks req.muscle_group req.training_level = some lm
          ∧ (out.1).landmarks = some lm)
    ∧ (out.2.2 = hist ++ [⟨uid, req.muscle_group, req.current_sets,
          (out.1).volume_prediction, req.training_level, req.progress, req.recovered⟩]
        ↔ (tier = Tier.pro ∨ tier = Tier.enterprise))
    ∧ (tier = Tier.free → out.2.2 = hist) := by
  rcases hc : check_rate_limit tier uid day predictEndpoint logs with ⟨res, logs2⟩
  rcases res with e | u
  · simp only [predict_volume_v1, hc] at h
    exact Except.noConfusion h
  · simp only [predict_volume_v1, hc] at h
    by_cases hmem : req.muscle_group ∈ get_available_muscle_groups tier
    · rw [if_pos hmem] at h
      rcases hr : recommend_volume req.current_sets req.training_level req.progress
          req.recovered req.muscle_group with (m | k) | pred
      · simp only [hr] at h
        exact Except.noConfusion h
      · simp only [hr] at h
        exact Except.noConfusion h
      · simp only [hr] at h
        obtain ⟨lm, hlm⟩ := recommend_volume_ok_lookup req.current_sets req.training_level
          req.progress req.recovered req.muscle_group pred hr
        by_cases ht : tier = Tier.pro ∨ tier = Tier.enterprise
        · rw [if_pos ht] at h
          cases commitOk
          · simp only [Bool.false_eq_true, if_false] at h
            exact Except.noConfusion h
          · rw [if_pos rfl] at h
            simp only [Except.ok.injEq] at h
            subst h
            have hne : tier ≠ Tier.free := by
              rcases ht with h1 | h1 <;> subst h1 <;> exact fun hx => Tier.noConfusion hx
            refine ⟨?_, ?_, ⟨fun _ => ht, fun _ => rfl⟩, fun hfree => absurd hfree hne⟩
            · simp [mkResponse, hne, hlm]
            · intro _
              exact ⟨lm, hlm, by simp [mkResponse, hne, hlm]⟩
        · rw [if_neg ht] at h
          simp only [Except.ok.injEq] at h
          subst h
          have hfree : tier = Tier.free := by
            cases tier
            · rfl
            · exact absurd (Or.inl rfl) ht
            · exact absurd (Or.inr rfl) ht
          subst hfree
          refine ⟨?_, fun hx => absurd rfl hx, ?_, fun _ => rfl⟩
          · simp [mkResponse]
          · constructor
            · intro heq
              exfalso
              have hlen := congrArg List.length heq
              simp at hlen
            · rintro (hx | hx) <;> exact Tier.noConfusion hx
    · rw [if_neg hmem] at h
      exact Except.noConfusion h

/-- Witness for C9: a pro identity with an empty state requesting chest at
intermediate level; the response carries the chest intermediate landmarks
and one HistoryRecord is appended. -/
theorem landmarks_present_iff_paid_witness :
    predict_volume_v1 Tier.pro 1 0 ⟨12, "intermediate", "yes", "yes", "chest"⟩ [] [] true =
      .ok (⟨"No change needed - continue current volume", 12, "chest", "intermediate",
            some ⟨10, 15, 20⟩⟩,
          [⟨1, "/v1/predict-volume", 0⟩],
          [⟨1, "chest", 12, "No change needed - continue current volume", "intermediate",
            "yes", "yes"⟩])
    ∧ (Tier.pro ≠ Tier.free →
        ∃ lm, lookupLandmarks "chest" "intermediate" = some lm
          ∧ some (⟨10, 15, 20⟩ : Landmarks) = some lm) :=
  ⟨by decide,
    (landmarks_present_iff_paid Tier.pro 1 0 ⟨12, "intermediate", "yes", "yes", "chest"⟩
      [] [] true
      (⟨"No change needed - continue current volume", 12, "chest", "intermediate",
            some ⟨10, 15, 20⟩⟩,
          [⟨1, "/v1/predict-volume", 0⟩],
          [⟨1, "chest", 12, "No change needed - continue current volume", "intermediate",
            "yes", "yes"⟩])
      (by decide)).2.1⟩
